import Mathlib

/-!
# Next-Level-Vue: route guard, route table and API client

A shallow embedding of `src/router.js` and `src/services/EventService.js`.

* Promises are modelled by their eventual state (`Promise`), and the handlers chained
  on them by state-passing functions, so that the order of side effects is the order
  of the entries of a log.
* The collaborators that are not part of the repository sources (the store, the
  continuation `next` handed in by the router, the network) are parameters.
-/

namespace NextLevelVue

set_option maxRecDepth 20000

/-! ## Data model -/

/-! ### Numbers and their conversion to text

A Number is a double. The conversion of a Number to text, which the concatenation
`"..." + x` applies, prints the shortest decimal that rounds back to the Number, in
plain form up to 21 integer digits and in exponent form beyond. -/

/-- A JavaScript Number: not-a-number, an infinity, or the finite double
`(-1)^negative * mant * 2 ^ (exp - 1074)`. Every double has this form, and every
value of this form is a double. -/
inductive JsNumber where
  | nan
  | infinity (negative : Bool)
  | finite (negative : Bool) (mant : Fin 9007199254740992) (exp : Fin 2046)
  deriving DecidableEq, Repr

/-- The number of binary digits of `n`; the first argument bounds the recursion. -/
def bitLength : Nat → Nat → Nat
  | 0, _ => 0
  | fuel + 1, n => if n = 0 then 0 else bitLength fuel (n / 2) + 1

/-- Is `p / q` at least `2 ^ d`? -/
def geTwoPow (p q : Nat) (d : Int) : Bool :=
  if 0 ≤ d then decide (q * 2 ^ d.toNat ≤ p) else decide (q ≤ p * 2 ^ (-d).toNat)

/-- The integer `E` with `2 ^ E ≤ p / q < 2 ^ (E + 1)`, for positive `p` and `q`. -/
def floorLog2 (p q : Nat) : Int :=
  let d : Int := (bitLength p p : Int) - (bitLength q q : Int)
  if geTwoPow p q d then d else d - 1

/-- Round the positive rational `p / q` to the nearest double, ties to the even
mantissa: the result `(m, u)` stands for `m * 2 ^ u` with `m ≤ 2 ^ 53` and
`-1074 ≤ u`. -/
def roundToDouble (p q : Nat) : Nat × Int :=
  let u : Int := max (floorLog2 p q - 52) (-1074)
  let num : Nat := if 0 ≤ u then p else p * 2 ^ (-u).toNat
  let den : Nat := if 0 ≤ u then q * 2 ^ u.toNat else q
  let m := num / den
  let r := num % den
  if den < 2 * r ∨ (2 * r = den ∧ m % 2 = 1) then (m + 1, u) else (m, u)

/-- Do `m1 * 2 ^ u1` and `m2 * 2 ^ u2` denote the same value? -/
def sameValue (m1 : Nat) (u1 : Int) (m2 : Nat) (u2 : Int) : Bool :=
  let lo := min u1 u2
  m1 * 2 ^ (u1 - lo).toNat == m2 * 2 ^ (u2 - lo).toNat

/-- The least `j` from the start value on with `q ≤ p * 10 ^ j`. -/
def leadingShift : Nat → Nat → Nat → Nat → Nat
  | 0, _, _, j => j
  | fuel + 1, p, q, j => if q ≤ p * 10 ^ j then j else leadingShift fuel p q (j + 1)

/-- The integer `n` with `10 ^ (n - 1) ≤ p / q < 10 ^ n`, for positive `p` and `q`. -/
def decimalExponent (p q : Nat) : Int :=
  if q ≤ p then ((Nat.toDigits 10 (p / q)).length : Int)
  else 1 - (leadingShift 400 p q 1 : Int)

/-- Drop the zeros at the end of a digit list. -/
def stripTrailingZeros (ds : List Char) : List Char :=
  (ds.reverse.dropWhile (fun c => c == '0')).reverse

/-- The decimal with `k` significant digits next to the double `m * 2 ^ u = p / q` that
rounds back to it, if there is one: its digits without trailing zeros and the exponent
`n` (the value is `0.digits * 10 ^ n`). -/
def digitsOfLength (m : Nat) (u : Int) (p q : Nat) (k : Nat) : Option (List Char × Int) :=
  let t : Int := (k : Int) - decimalExponent p q
  let num : Nat := if 0 ≤ t then p * 10 ^ t.toNat else p
  let den : Nat := if 0 ≤ t then q else q * 10 ^ (-t).toNat
  let sLo := num / den
  let sHi := sLo + 1
  let back (s : Nat) : Bool :=
    let r := if 0 ≤ t then roundToDouble s (10 ^ t.toNat) else roundToDouble (s * 10 ^ (-t).toNat) 1
    sameValue r.1 r.2 m u
  let pack (s : Nat) : Option (List Char × Int) :=
    let ds := Nat.toDigits 10 s
    some (stripTrailingZeros ds, (ds.length : Int) - t)
  let dLo := num - sLo * den
  let dHi := sHi * den - num
  if back sLo ∧ back sHi then
    if dLo < dHi then pack sLo
    else if dHi < dLo then pack sHi
    else if sLo % 2 = 0 then pack sLo else pack sHi
  else if back sLo then pack sLo
  else if back sHi then pack sHi
  else none

/-- The shortest decimal that rounds back to the double: try 1, 2, ... digits. -/
def shortestDigits (m : Nat) (u : Int) (p q : Nat) : Nat → Nat → List Char × Int
  | 0, k => (digitsOfLength m u p q k).getD ([], 0)
  | fuel + 1, k =>
    match digitsOfLength m u p q k with
    | some r => r
    | none => shortestDigits m u p q fuel (k + 1)

/-- The text of a positive number from its digits and decimal exponent. -/
def formatDigits (ds : List Char) (n : Int) : String :=
  let k : Int := ds.length
  if k ≤ n ∧ n ≤ 21 then String.mk (ds ++ List.replicate (n - k).toNat '0')
  else if 0 < n ∧ n ≤ 21 then String.mk (ds.take n.toNat ++ '.' :: ds.drop n.toNat)
  else if -6 < n ∧ n ≤ 0 then String.mk ('0' :: '.' :: List.replicate (-n).toNat '0' ++ ds)
  else
    let e := n - 1
    let sign := if e < 0 then '-' else '+'
    let expo := Nat.toDigits 10 e.natAbs
    match ds with
    | [] => ""
    | [d] => String.mk (d :: 'e' :: sign :: expo)
    | d :: rest => String.mk (d :: '.' :: rest ++ 'e' :: sign :: expo)

/-- The text of the positive double `mant * 2 ^ (expBiased - 1074)`. -/
def positiveToString (mant expBiased : Nat) : String :=
  let u : Int := (expBiased : Int) - 1074
  let p : Nat := if 0 ≤ u then mant * 2 ^ u.toNat else mant
  let q : Nat := if 0 ≤ u then 1 else 2 ^ (-u).toNat
  let r := shortestDigits mant u p q 16 1
  formatDigits r.1 r.2

/-- The text of a Number, as string concatenation produces it. -/
def JsNumber.toText : JsNumber → String
  | .nan => "NaN"
  | .infinity false => "Infinity"
  | .infinity true => "-Infinity"
  | .finite negative mant exp =>
    if mant.val = 0 then "0"
    else (if negative then "-" else "") ++ positiveToString mant.val exp.val

/-- The Number a non-negative integer literal denotes: the nearest double. -/
def JsNumber.ofNat (n : Nat) : JsNumber :=
  if n = 0 then .finite false ⟨0, by decide⟩ ⟨0, by decide⟩
  else
    let r := roundToDouble n 1
    let m : Nat := if r.1 = 9007199254740992 then 4503599627370496 else r.1
    let u : Int := if r.1 = 9007199254740992 then r.2 + 1 else r.2
    if 971 < u then .infinity false
    else .finite false ⟨m % 9007199254740992, Nat.mod_lt _ (by decide)⟩
      ⟨(u + 1074).toNat % 2046, Nat.mod_lt _ (by decide)⟩

instance (n : Nat) : OfNat JsNumber n := ⟨JsNumber.ofNat n⟩

/-- Primitive JavaScript values, used as route ids, query arguments and event fields:
the values whose conversion to text is fixed by the language alone. -/
inductive Prim where
  | undefined
  | null
  | bool (b : Bool)
  | num (x : JsNumber)
  | str (s : String)
  deriving DecidableEq, Repr

/-- An event: an identifier and further fields that the core logic never inspects. -/
structure Event where
  id : Prim
  fields : List (String × Prim)
  deriving DecidableEq, Repr

/-- An HTTP response as the client library hands it on: status code and decoded body. -/
structure Response where
  status : Nat
  data : List Event
  deriving DecidableEq, Repr

/-- An error object. `response` is absent for transport failures (network error,
timeout) and for errors that are not HTTP errors at all. -/
structure JsError where
  message : String
  response : Option Response
  deriving DecidableEq, Repr

/-- A named route location, the argument of a redirect: `{ name, params }`. -/
structure Location where
  name : String
  params : List (String × String)
  deriving DecidableEq, Repr

/-- The parameter set of the target route: `routeTo.params.id` and
`routeTo.params.event` (absent until the guard attaches it). -/
structure Params where
  id : Prim
  event : Option Event
  deriving DecidableEq, Repr

/-- The target route of a transition, as far as the guard reads and writes it. -/
structure Route where
  params : Params
  deriving DecidableEq, Repr

/-- The eventual state of a promise. -/
inductive Promise (α : Type) where
  | pending
  | fulfilled (value : α)
  | rejected (reason : JsError)
  deriving DecidableEq, Repr

/-- The chaining `p.then(onFulfilled)`: the handler runs only when `p` is fulfilled, a
rejection is passed on untouched. A handler that throws returns `rejected`. -/
def Promise.then_ {α β σ : Type} (p : Promise α)
    (onFulfilled : α → σ → σ × Promise β) (s : σ) : σ × Promise β :=
  match p with
  | .fulfilled v => onFulfilled v s
  | .rejected e => (s, .rejected e)
  | .pending => (s, .pending)

/-- The chaining `p.catch(onRejected)`: the handler runs only when `p` is rejected, a
fulfilment is passed on untouched. -/
def Promise.catch_ {α σ : Type} (p : Promise α)
    (onRejected : JsError → σ → σ × Promise α) (s : σ) : σ × Promise α :=
  match p with
  | .fulfilled v => (s, .fulfilled v)
  | .rejected e => onRejected e s
  | .pending => (s, .pending)

/-! ## The `event-show` guard (`src/router.js`, lines 33 to 50) -/

/-- The side effects of the guard on its collaborators, in the order they happen. -/
inductive Effect where
  | dispatch (action : String) (payload : Prim)
  | assignEvent (event : Event)
  | next (arg : Option Location)
  deriving DecidableEq, Repr

/-- The collaborators of the guard. `dispatch` is the promise `store.dispatch` returns;
`nextThrows arg` is the error the call `next(arg)` throws, if it throws. -/
structure Env where
  dispatch : String → Prim → Promise Event
  nextThrows : Option Location → Option JsError

/-- The state threaded through the guard: the route object and the log of effects. -/
structure GuardState where
  routeTo : Route
  trace : List Effect
  deriving DecidableEq, Repr

/-- The call `next(arg)`: it is logged, and it returns normally or throws. `next()` is
`arg = none`, a redirect `next({ name, params })` is `arg = some _`. -/
def callNext (env : Env) (arg : Option Location) (s : GuardState) :
    GuardState × Promise Unit :=
  ({ s with trace := s.trace ++ [Effect.next arg] },
    match env.nextThrows arg with
    | none => .fulfilled ()
    | some e => .rejected e)

/-- The success handler, lines 37 to 41:
`event => { routeTo.params.event = event; next() }`. -/
def onFetched (env : Env) (event : Event) (s : GuardState) : GuardState × Promise Unit :=
  callNext env none
    { routeTo := { s.routeTo with params := { s.routeTo.params with event := some event } }
      trace := s.trace ++ [Effect.assignEvent event] }

/-- The test `error.response && error.response.status == 404` of line 44. -/
def isNotFound (error : JsError) : Bool :=
  match error.response with
  | some r => r.status == 404
  | none => false

/-- The redirect of line 45. -/
def notFoundEvent : Location := { name := "404", params := [("resource", "event")] }

/-- The redirect of line 47. -/
def networkIssue : Location := { name := "network-issue", params := [] }

/-- The failure handler, lines 43 to 49. -/
def onFailed (env : Env) (error : JsError) (s : GuardState) : GuardState × Promise Unit :=
  if isNotFound error then callNext env (some notFoundEvent) s
  else callNext env (some networkIssue) s

/-- The guard `beforeEnter(routeTo, routeFrom, next)`: dispatch the fetch with
`routeTo.params.id`, chain the success handler, then chain the failure handler on
the promise the success handler produced. -/
def beforeEnter (env : Env) (routeTo : Route) : GuardState × Promise Unit :=
  let s0 : GuardState :=
    { routeTo := routeTo, trace := [Effect.dispatch "event/fetchEvent" routeTo.params.id] }
  let fetched := env.dispatch "event/fetchEvent" routeTo.params.id
  let r1 := fetched.then_ (onFetched env) s0
  r1.2.catch_ (onFailed env) r1.1

/-- The success handler when the property write can fail. `writeThrows` is the error
the assignment `routeTo.params.event = event` throws when the params object rejects
the write; then nothing is written and the call `next()` is not reached. Without such
an error this is `onFetched`. -/
def onFetchedWithWrite (env : Env) (writeThrows : Option JsError) (event : Event)
    (s : GuardState) : GuardState × Promise Unit :=
  match writeThrows with
  | some e => (s, .rejected e)
  | none => onFetched env event s

/-- The guard over a params object whose property write can fail: the same chain as
`beforeEnter`, with `onFetchedWithWrite` as success handler. -/
def beforeEnterWithWrite (env : Env) (writeThrows : Option JsError) (routeTo : Route) :
    GuardState × Promise Unit :=
  let s0 : GuardState :=
    { routeTo := routeTo, trace := [Effect.dispatch "event/fetchEvent" routeTo.params.id] }
  let fetched := env.dispatch "event/fetchEvent" routeTo.params.id
  let r1 := fetched.then_ (onFetchedWithWrite env writeThrows) s0
  r1.2.catch_ (onFailed env) r1.1

/-- The arguments of the invocations of `next` in a log, in order. -/
def nextCalls : List Effect → List (Option Location)
  | [] => []
  | Effect.next arg :: rest => arg :: nextCalls rest
  | _ :: rest => nextCalls rest

/-- The dispatches in a log, in order. -/
def dispatches : List Effect → List (String × Prim)
  | [] => []
  | Effect.dispatch a p :: rest => (a, p) :: dispatches rest
  | _ :: rest => dispatches rest

/-! ## The route table (`src/router.js`, lines 15 to 80) -/

/-- A route record of the table, as far as resolution is concerned: the path pattern,
the route name, the redirect target, and whether a `beforeEnter` guard is attached. -/
structure RouteRecord where
  path : String
  name : Option String
  redirect : Option Location
  guarded : Bool
  deriving DecidableEq, Repr

/-- The redirect of the catch-all entry, line 63. -/
def notFoundPage : Location := { name := "404", params := [("resource", "page")] }

/-- The `routes` array, in the order of the source. -/
def routes : List RouteRecord :=
  [ { path := "/", name := some "event-list", redirect := none, guarded := false },
    { path := "/event/create", name := some "event-create", redirect := none, guarded := false },
    { path := "/event/:id", name := some "event-show", redirect := none, guarded := true },
    { path := "/404", name := some "404", redirect := none, guarded := false },
    { path := "*", name := none, redirect := some notFoundPage, guarded := false },
    { path := "/network-issue", name := some "network-issue", redirect := none, guarded := false },
    { path := "/validation", name := some "validation", redirect := none, guarded := false },
    { path := "/filter", name := some "filter", redirect := none, guarded := false } ]

/-- Split a character list at every slash. -/
def splitSlash : List Char → List (List Char)
  | [] => [[]]
  | c :: cs =>
    match splitSlash cs with
    | [] => [[]]
    | seg :: rest => if c = '/' then [] :: seg :: rest else (c :: seg) :: rest

/-- Drop one trailing slash, as the router does when it registers a path pattern. -/
def stripTrailingSlash : List Char → List Char
  | [] => []
  | [c] => if c = '/' then [] else [c]
  | c :: cs => c :: stripTrailingSlash cs

/-- The router normalises the pattern of a top-level record by dropping one trailing
slash (so the pattern `/` is registered as the empty pattern). -/
def normalizePath (path : String) : String :=
  String.mk (stripTrailingSlash path.toList)

/-- Register one record: a record whose normalised pattern is already registered is
ignored. -/
def addRouteRecord (acc : List RouteRecord) (r : RouteRecord) : List RouteRecord :=
  let p := normalizePath r.path
  if acc.any (fun q => q.path == p) then acc else acc ++ [{ r with path := p }]

/-- The lookup order the router builds from the table: the records in the order of
the table, except that wildcard entries are moved to the end. -/
def createRouteMap (table : List RouteRecord) : List RouteRecord :=
  let l := table.foldl addRouteRecord []
  l.filter (fun r => r.path != "*") ++ l.filter (fun r => r.path == "*")

/-- A segment of a path pattern: literal text or a named parameter `:name`. -/
inductive Seg where
  | lit (text : List Char)
  | param (name : String)
  deriving DecidableEq, Repr

/-- Read one segment of a pattern. -/
def toSeg : List Char → Seg
  | ':' :: name => Seg.param (String.mk name)
  | text => Seg.lit text

/-- The segments of a normalised pattern made of slash-led segments; `none` for any
other form of pattern. -/
def compilePattern : List Char → Option (List Seg)
  | [] => some []
  | '/' :: rest => some ((splitSlash rest).map toSeg)
  | _ => none

/-- Match the segments of a path against the segments of a pattern. Literal text is
compared ignoring case, a parameter takes one non-empty segment, and one trailing
slash is allowed. The result lists the captured parameters. -/
def matchSegs : List Seg → List (List Char) → Option (List (String × String))
  | [], [] => some []
  | [], [[]] => some []
  | Seg.lit text :: segs, tok :: toks =>
    if tok.map Char.toLower = text.map Char.toLower then matchSegs segs toks else none
  | Seg.param name :: segs, tok :: toks =>
    if tok = [] then none
    else (matchSegs segs toks).map (fun ps => (name, String.mk tok) :: ps)
  | _, _ => none

/-- Does the path match the (normalised) pattern? The wildcard matches every path. -/
def matchRoute (pattern : String) (path : String) : Option (List (String × String)) :=
  if pattern = "*" then some [("pathMatch", path)]
  else
    match compilePattern pattern.toList with
    | none => none
    | some segs =>
      match path.toList with
      | [] => if segs = [] then some [] else none
      | '/' :: rest => matchSegs segs (splitSlash rest)
      | _ => none

/-- The outcome of resolving a path: a route of the table with its captured
parameters, a redirect, or nothing. -/
inductive Resolution where
  | route (name : Option String) (params : List (String × String)) (guarded : Bool)
  | redirect (target : Location)
  | unmatched
  deriving DecidableEq, Repr

/-- The first record of the lookup order whose pattern matches decides. -/
def resolveIn : List RouteRecord → String → Resolution
  | [], _ => Resolution.unmatched
  | r :: rs, path =>
    match matchRoute r.path path with
    | some params =>
      match r.redirect with
      | some target => Resolution.redirect target
      | none => Resolution.route r.name params r.guarded
    | none => resolveIn rs path

/-- Resolve a path against a route table. -/
def resolve (table : List RouteRecord) (path : String) : Resolution :=
  resolveIn (createRouteMap table) path

/-! ## The API client (`src/services/EventService.js`) -/

/-- The request methods the service uses. -/
inductive Method where
  | GET
  | POST
  deriving DecidableEq, Repr

/-- A request handed to the network: method, URL relative to the base URL, body. -/
structure Request where
  method : Method
  url : String
  data : Option Event
  deriving DecidableEq, Repr

/-- What the network does with a request: it answers with a response, fails, or lets
the 10000 ms timeout of the client expire. -/
inductive Transport where
  | response (r : Response)
  | networkError
  | timeout
  deriving DecidableEq, Repr

/-- What the client does, in order: the two progress signals and the requests sent. -/
inductive ClientEvent where
  | progressStart
  | progressDone
  | sent (req : Request)
  deriving DecidableEq, Repr

/-- The default status check of the client library: a response settles the request
successfully when its status is in the range 200 to 299 (or is 0). -/
def validateStatus (status : Nat) : Bool :=
  status == 0 || (200 ≤ status && status < 300)

/-- The promise the client library makes of a network outcome. -/
def settle : Transport → Promise Response
  | .response r =>
    if validateStatus r.status then .fulfilled r
    else .rejected
      { message := "Request failed with status code " ++ toString r.status, response := some r }
  | .networkError => .rejected { message := "Network Error", response := none }
  | .timeout => .rejected { message := "timeout of 10000ms exceeded", response := none }

/-- The request interceptor, lines 16 to 19: `config => { Nprogress.start(); return config }`. -/
def requestInterceptor (config : Request) (log : List ClientEvent) :
    List ClientEvent × Promise Request :=
  (log ++ [ClientEvent.progressStart], .fulfilled config)

/-- The response interceptor, lines 22 to 25:
`response => { Nprogress.done(); return response }`. -/
def responseInterceptor (response : Response) (log : List ClientEvent) :
    List ClientEvent × Promise Response :=
  (log ++ [ClientEvent.progressDone], .fulfilled response)

/-- Sending the request: it is logged and settles as the network decides. -/
def dispatchRequest (net : Request → Transport) (config : Request) (log : List ClientEvent) :
    List ClientEvent × Promise Response :=
  (log ++ [ClientEvent.sent config], settle (net config))

/-- A request through `apiClient`: the client library chains the request interceptor,
the sending and the response interceptor with `then`. Both interceptors are
registered with a success handler only. -/
def apiClientRequest (net : Request → Transport) (config : Request) (log : List ClientEvent) :
    List ClientEvent × Promise Response :=
  let r0 : List ClientEvent × Promise Request := (log, .fulfilled config)
  let r1 := r0.2.then_ requestInterceptor r0.1
  let r2 := r1.2.then_ (dispatchRequest net) r1.1
  r2.2.then_ responseInterceptor r2.1

/-- The call `apiClient.get(url)`. -/
def apiClientGet (net : Request → Transport) (url : String) (log : List ClientEvent) :
    List ClientEvent × Promise Response :=
  apiClientRequest net { method := Method.GET, url := url, data := none } log

/-- The call `apiClient.post(url, data)`. -/
def apiClientPost (net : Request → Transport) (url : String) (data : Event)
    (log : List ClientEvent) : List ClientEvent × Promise Response :=
  apiClientRequest net { method := Method.POST, url := url, data := some data } log

/-- The string a primitive value contributes to a concatenation `"..." + v`. -/
def jsToString : Prim → String
  | .undefined => "undefined"
  | .null => "null"
  | .bool true => "true"
  | .bool false => "false"
  | .num x => x.toText
  | .str s => s

/-- The service method `getEvents(perPage, page)`, lines 27 to 29. -/
def getEvents (net : Request → Transport) (perPage page : Prim) (log : List ClientEvent) :
    List ClientEvent × Promise Response :=
  apiClientGet net ("/events?_limit=" ++ jsToString perPage ++ "&_page=" ++ jsToString page) log

/-- The service method `getEvent(id)`, lines 30 to 32. -/
def getEvent (net : Request → Transport) (id : Prim) (log : List ClientEvent) :
    List ClientEvent × Promise Response :=
  apiClientGet net ("/events/" ++ jsToString id) log

/-- The service method `postEvent(event)`, lines 33 to 35. -/
def postEvent (net : Request → Transport) (event : Event) (log : List ClientEvent) :
    List ClientEvent × Promise Response :=
  apiClientPost net "/events" event log

/-- The requests sent in a log, in order. -/
def sentRequests : List ClientEvent → List Request
  | [] => []
  | ClientEvent.sent req :: rest => req :: sentRequests rest
  | _ :: rest => sentRequests rest

/-- Did the request settle with a failure: an HTTP error response, a network error
or a timeout? -/
def Transport.failed : Transport → Bool
  | .response r => !validateStatus r.status
  | .networkError => true
  | .timeout => true

/-! ## Concrete inputs used by the examples below -/

/-- The event of the scenario `{id: 42, title: "Launch"}`. -/
def launch : Event := { id := .num 42, fields := [("title", .str "Launch")] }

/-- A target route with the given id and no event attached yet. -/
def routeFor (id : Prim) : Route := { params := { id := id, event := none } }

/-- A store whose fetch resolves with `launch`, and a continuation that never throws. -/
def envResolves : Env :=
  { dispatch := fun _ _ => .fulfilled launch, nextThrows := fun _ => none }

/-- A store whose fetch rejects with a 404 response. -/
def envNotFound : Env :=
  { dispatch := fun _ _ =>
      .rejected { message := "Request failed with status code 404",
                  response := some { status := 404, data := [] } }
    nextThrows := fun _ => none }

/-- A store whose fetch rejects with a timeout: the error carries no response. -/
def envTimeout : Env :=
  { dispatch := fun _ _ =>
      .rejected { message := "timeout of 10000ms exceeded", response := none }
    nextThrows := fun _ => none }

/-- The error a strict-mode write to a frozen params object throws. -/
def frozenParams : JsError :=
  { message := "Cannot add property event, object is not extensible", response := none }

/-- The declared path patterns other than the catch-all, as written in the table. -/
def declaredPatterns : List String :=
  ["/", "/event/create", "/event/:id", "/404", "/network-issue", "/validation", "/filter"]

/-! ## Lemmas on the guard -/

/-- The log of the guard when the fetch resolves. -/
theorem beforeEnter_fulfilled (env : Env) (routeTo : Route) (event : Event)
    (h : env.dispatch "event/fetchEvent" routeTo.params.id = .fulfilled event) :
    (beforeEnter env routeTo).1 =
      { routeTo := { routeTo with params := { routeTo.params with event := some event } }
        trace :=
          [Effect.dispatch "event/fetchEvent" routeTo.params.id, Effect.assignEvent event,
            Effect.next none] ++
          (match env.nextThrows none with
           | none => []
           | some e =>
             [Effect.next (some (if isNotFound e then notFoundEvent else networkIssue))]) } := by
  unfold beforeEnter
  simp only [h, Promise.then_, onFetched, callNext]
  cases hn : env.nextThrows none with
  | none => simp [Promise.catch_]
  | some e =>
    by_cases h4 : isNotFound e = true <;> simp [Promise.catch_, onFailed, callNext, h4]

/-- The log of the guard when the fetch rejects. -/
theorem beforeEnter_rejected (env : Env) (routeTo : Route) (error : JsError)
    (h : env.dispatch "event/fetchEvent" routeTo.params.id = .rejected error) :
    (beforeEnter env routeTo).1 =
      { routeTo := routeTo
        trace :=
          [Effect.dispatch "event/fetchEvent" routeTo.params.id,
            Effect.next (some (if isNotFound error then notFoundEvent else networkIssue))] } := by
  unfold beforeEnter
  simp only [h, Promise.then_, Promise.catch_, onFailed]
  by_cases h4 : isNotFound error = true <;> simp [callNext, h4]

/-- The log of the guard while the fetch never settles. -/
theorem beforeEnter_pending (env : Env) (routeTo : Route)
    (h : env.dispatch "event/fetchEvent" routeTo.params.id = .pending) :
    (beforeEnter env routeTo).1 =
      { routeTo := routeTo
        trace := [Effect.dispatch "event/fetchEvent" routeTo.params.id] } := by
  unfold beforeEnter
  simp [h, Promise.then_, Promise.catch_]

/-- The continuation is never invoked more than twice, and at least once as soon as the
fetch settles. -/
theorem nextCalls_bounds (env : Env) (routeTo : Route) :
    (nextCalls (beforeEnter env routeTo).1.trace).length ≤ 2 ∧
    (env.dispatch "event/fetchEvent" routeTo.params.id ≠ .pending →
      1 ≤ (nextCalls (beforeEnter env routeTo).1.trace).length) := by
  cases h : env.dispatch "event/fetchEvent" routeTo.params.id with
  | pending => simp [beforeEnter_pending env routeTo h, nextCalls]
  | fulfilled event =>
    rw [beforeEnter_fulfilled env routeTo event h]
    cases env.nextThrows none <;> simp [nextCalls]
  | rejected error =>
    rw [beforeEnter_rejected env routeTo error h]
    simp [nextCalls]

/-- With a write that succeeds, the guard over a fallible write is `beforeEnter`. -/
theorem beforeEnterWithWrite_none (env : Env) (routeTo : Route) :
    beforeEnterWithWrite env none routeTo = beforeEnter env routeTo := rfl

/-- The log of the guard when the fetch resolves and the write of the event throws:
`next()` is skipped, the catch handler redirects, and the route object is untouched. -/
theorem beforeEnterWithWrite_write_fails (env : Env) (routeTo : Route) (event : Event)
    (e : JsError)
    (h : env.dispatch "event/fetchEvent" routeTo.params.id = .fulfilled event) :
    (beforeEnterWithWrite env (some e) routeTo).1 =
      { routeTo := routeTo
        trace :=
          [Effect.dispatch "event/fetchEvent" routeTo.params.id,
            Effect.next (some (if isNotFound e then notFoundEvent else networkIssue))] } := by
  unfold beforeEnterWithWrite
  simp only [h, Promise.then_, onFetchedWithWrite, Promise.catch_, onFailed]
  by_cases h4 : isNotFound e = true <;> simp [callNext, h4]

/-- The log of the guard over a fallible write when the fetch does not resolve is the
log of `beforeEnter`: the success handler never runs. -/
theorem beforeEnterWithWrite_not_fulfilled (env : Env) (writeThrows : Option JsError)
    (routeTo : Route)
    (h : ∀ event, env.dispatch "event/fetchEvent" routeTo.params.id ≠ .fulfilled event) :
    beforeEnterWithWrite env writeThrows routeTo = beforeEnter env routeTo := by
  unfold beforeEnterWithWrite beforeEnter
  cases hd : env.dispatch "event/fetchEvent" routeTo.params.id with
  | pending => simp [Promise.then_]
  | fulfilled event => exact absurd hd (h event)
  | rejected error => simp [Promise.then_]

/-! ## Lemmas on the API client -/

/-- The log and the result of a request through the client, by network outcome. -/
theorem apiClientRequest_eq (net : Request → Transport) (config : Request)
    (log : List ClientEvent) :
    apiClientRequest net config log =
      (log ++ [ClientEvent.progressStart, ClientEvent.sent config] ++
          (if (net config).failed then [] else [ClientEvent.progressDone]),
        settle (net config)) := by
  unfold apiClientRequest
  simp only [Promise.then_, requestInterceptor, dispatchRequest]
  cases hn : net config with
  | response r =>
    by_cases hv : validateStatus r.status = true <;>
      simp [settle, Transport.failed, hv, Promise.then_, responseInterceptor]
  | networkError => simp [settle, Transport.failed, Promise.then_]
  | timeout => simp [settle, Transport.failed, Promise.then_]

/-- The requests sent in a log that is extended by one request. -/
theorem sentRequests_append (l1 l2 : List ClientEvent) :
    sentRequests (l1 ++ l2) = sentRequests l1 ++ sentRequests l2 := by
  induction l1 with
  | nil => simp [sentRequests]
  | cons e rest ih => cases e <;> simp [sentRequests, ih]

/-- The scenario `getEvents(10, 2)`: one GET of `/events?_limit=10&_page=2`. -/
theorem getEvents_10_2 (net : Request → Transport) :
    sentRequests (getEvents net (.num 10) (.num 2) []).1 =
      [{ method := Method.GET, url := "/events?_limit=10&_page=2", data := none }] := by
  have hu : "/events?_limit=" ++ jsToString (.num 10) ++ "&_page=" ++ jsToString (.num 2)
      = "/events?_limit=10&_page=2" := by decide
  unfold getEvents apiClientGet
  rw [hu, apiClientRequest_eq]
  split <;> simp [sentRequests]

/-! ## The claims on the guard -/

/-- C1: when the dispatch of `event/fetchEvent` for `routeTo.params.id` resolves with an
event, the guard sets `routeTo.params.event` to exactly that event and then invokes the
continuation with no argument: the log starts with the dispatch, the assignment and
`next()`, in this order, and nothing follows when `next()` returns normally. -/
theorem C1_resolved_event_attached_then_proceed (env : Env) (routeTo : Route) (event : Event)
    (h : env.dispatch "event/fetchEvent" routeTo.params.id = .fulfilled event) :
    (beforeEnter env routeTo).1.routeTo.params.event = some event ∧
    (beforeEnter env routeTo).1.routeTo.params.id = routeTo.params.id ∧
    (beforeEnter env routeTo).1.trace =
      [Effect.dispatch "event/fetchEvent" routeTo.params.id, Effect.assignEvent event,
        Effect.next none] ++
      (match env.nextThrows none with
       | none => []
       | some e =>
         [Effect.next (some (if isNotFound e then notFoundEvent else networkIssue))]) := by
  rw [beforeEnter_fulfilled env routeTo event h]
  exact ⟨rfl, rfl, rfl⟩

/-- Witness of C1: id 42 resolving `{id: 42, title: "Launch"}`. -/
theorem C1_witness :
    (beforeEnter envResolves (routeFor (.num 42))).1.routeTo.params.event = some launch ∧
    (beforeEnter envResolves (routeFor (.num 42))).1.routeTo.params.id = .num 42 ∧
    (beforeEnter envResolves (routeFor (.num 42))).1.trace =
      [Effect.dispatch "event/fetchEvent" (.num 42), Effect.assignEvent launch,
        Effect.next none] :=
  C1_resolved_event_attached_then_proceed envResolves (routeFor (.num 42)) launch rfl

/-- C2: when the dispatch rejects with an error that carries a response of status 404, the
guard invokes the continuation with the redirect `{name: "404", params: {resource:
"event"}}`, and the route object is left as it was: `routeTo.params.event` is not set. -/
theorem C2_rejected_404_redirects_to_404 (env : Env) (routeTo : Route) (error : JsError)
    (r : Response)
    (h : env.dispatch "event/fetchEvent" routeTo.params.id = .rejected error)
    (hr : error.response = some r) (hs : r.status = 404) :
    (beforeEnter env routeTo).1.trace =
      [Effect.dispatch "event/fetchEvent" routeTo.params.id,
        Effect.next (some { name := "404", params := [("resource", "event")] })] ∧
    (beforeEnter env routeTo).1.routeTo = routeTo := by
  have h4 : isNotFound error = true := by simp [isNotFound, hr, hs]
  rw [beforeEnter_rejected env routeTo error h]
  simp [h4, notFoundEvent]

/-- Witness of C2: the fetch for id 999 rejects with a 404 response. -/
theorem C2_witness :
    (beforeEnter envNotFound (routeFor (.num 999))).1.trace =
      [Effect.dispatch "event/fetchEvent" (.num 999),
        Effect.next (some { name := "404", params := [("resource", "event")] })] ∧
    (beforeEnter envNotFound (routeFor (.num 999))).1.routeTo = routeFor (.num 999) :=
  C2_rejected_404_redirects_to_404 envNotFound (routeFor (.num 999)) _
    { status := 404, data := [] } rfl rfl rfl

/-- C3: when the dispatch rejects with an error that is not a 404 response (no response
at all, or a response of any other status), the guard invokes the continuation with the
redirect `{name: "network-issue"}`. -/
theorem C3_rejected_otherwise_redirects_to_network_issue (env : Env) (routeTo : Route)
    (error : JsError)
    (h : env.dispatch "event/fetchEvent" routeTo.params.id = .rejected error)
    (hn : ∀ r, error.response = some r → r.status ≠ 404) :
    (beforeEnter env routeTo).1.trace =
      [Effect.dispatch "event/fetchEvent" routeTo.params.id,
        Effect.next (some { name := "network-issue", params := [] })] := by
  have h4 : isNotFound error = false := by
    unfold isNotFound
    cases hr : error.response with
    | none => rfl
    | some r => simpa using hn r hr
  rw [beforeEnter_rejected env routeTo error h]
  simp [h4, networkIssue]

/-- Witness of C3: the fetch for id 7 rejects with a timeout, an error with no response. -/
theorem C3_witness :
    (beforeEnter envTimeout (routeFor (.num 7))).1.trace =
      [Effect.dispatch "event/fetchEvent" (.num 7),
        Effect.next (some { name := "network-issue", params := [] })] :=
  C3_rejected_otherwise_redirects_to_network_issue envTimeout (routeFor (.num 7)) _ rfl
    (by intro r hr; cases hr)

/-- C4: for every settled outcome of the fetch (resolve, reject with 404, reject
otherwise) the continuation is invoked exactly once, also when the assignment of
`routeTo.params.event` in the success handler throws and control passes to the chained
catch handler. The continuation is the one the router hands in: its proceed form
`next()` returns to the guard and does not throw into it. -/
theorem C4_next_invoked_exactly_once (env : Env) (writeThrows : Option JsError)
    (routeTo : Route)
    (hsettled : env.dispatch "event/fetchEvent" routeTo.params.id ≠ .pending)
    (hnext : env.nextThrows none = none) :
    (nextCalls (beforeEnterWithWrite env writeThrows routeTo).1.trace).length = 1 := by
  cases h : env.dispatch "event/fetchEvent" routeTo.params.id with
  | pending => exact absurd h hsettled
  | fulfilled event =>
    cases writeThrows with
    | none =>
      rw [beforeEnterWithWrite_none, beforeEnter_fulfilled env routeTo event h, hnext]
      simp [nextCalls]
    | some e =>
      rw [beforeEnterWithWrite_write_fails env routeTo event e h]
      simp [nextCalls]
  | rejected error =>
    rw [beforeEnterWithWrite_not_fulfilled env writeThrows routeTo (by simp [h]),
      beforeEnter_rejected env routeTo error h]
    simp [nextCalls]

/-- Witness of C4: the fetch resolves and the write of the event throws. -/
theorem C4_witness :
    (nextCalls (beforeEnterWithWrite envResolves (some frozenParams)
      (routeFor (.num 42))).1.trace).length = 1 :=
  C4_next_invoked_exactly_once envResolves (some frozenParams) (routeFor (.num 42))
    (by decide) rfl

/-- C6: the proceed form `next()` is invoked if and only if the fetch resolved, and
every invocation of the continuation that is not the proceed form is a redirect to the
named route `404` or `network-issue`; so when the fetch rejects, every invocation is
such a redirect. -/
theorem C6_proceed_iff_resolved (env : Env) (routeTo : Route) :
    (none ∈ nextCalls (beforeEnter env routeTo).1.trace ↔
      ∃ event, env.dispatch "event/fetchEvent" routeTo.params.id = .fulfilled event) ∧
    (∀ arg ∈ nextCalls (beforeEnter env routeTo).1.trace,
      arg = none ∨ arg = some notFoundEvent ∨ arg = some networkIssue) ∧
    ∀ error, env.dispatch "event/fetchEvent" routeTo.params.id = .rejected error →
      ∀ arg ∈ nextCalls (beforeEnter env routeTo).1.trace,
        arg = some notFoundEvent ∨ arg = some networkIssue := by
  cases h : env.dispatch "event/fetchEvent" routeTo.params.id with
  | pending => simp [beforeEnter_pending env routeTo h, nextCalls]
  | fulfilled event =>
    rw [beforeEnter_fulfilled env routeTo event h]
    cases env.nextThrows none with
    | none => simp [nextCalls]
    | some e => by_cases h4 : isNotFound e = true <;> simp [nextCalls, h4]
  | rejected error =>
    rw [beforeEnter_rejected env routeTo error h]
    by_cases h4 : isNotFound error = true <;> simp [nextCalls, h4, notFoundEvent, networkIssue]

/-- C9: the store action `event/fetchEvent` is dispatched exactly once, with the payload
`routeTo.params.id`, as the very first effect of the guard (so before any invocation of
the continuation); nothing after it in the log is a dispatch, on any path. -/
theorem C9_dispatch_once_and_first (env : Env) (routeTo : Route) :
    dispatches (beforeEnter env routeTo).1.trace = [("event/fetchEvent", routeTo.params.id)] ∧
    ∃ rest, (beforeEnter env routeTo).1.trace =
        Effect.dispatch "event/fetchEvent" routeTo.params.id :: rest ∧
      dispatches rest = [] := by
  cases h : env.dispatch "event/fetchEvent" routeTo.params.id with
  | pending => simp [beforeEnter_pending env routeTo h, dispatches]
  | fulfilled event =>
    rw [beforeEnter_fulfilled env routeTo event h]
    cases env.nextThrows none <;> simp [dispatches]
  | rejected error =>
    rw [beforeEnter_rejected env routeTo error h]
    simp [dispatches]

/-! ## The claims on the route table -/

/-- C7: a path that matches none of the declared patterns `/`, `/event/create`,
`/event/:id`, `/404`, `/network-issue`, `/validation` and `/filter` resolves to the
redirect `{name: "404", params: {resource: "page"}}`. -/
theorem C7_unmatched_path_redirects_to_404_page (path : String)
    (h : ∀ p ∈ declaredPatterns, matchRoute (normalizePath p) path = none) :
    resolve routes path =
      Resolution.redirect { name := "404", params := [("resource", "page")] } := by
  have hmap : createRouteMap routes =
      [ { path := "", name := some "event-list", redirect := none, guarded := false },
        { path := "/event/create", name := some "event-create", redirect := none,
          guarded := false },
        { path := "/event/:id", name := some "event-show", redirect := none, guarded := true },
        { path := "/404", name := some "404", redirect := none, guarded := false },
        { path := "/network-issue", name := some "network-issue", redirect := none,
          guarded := false },
        { path := "/validation", name := some "validation", redirect := none,
          guarded := false },
        { path := "/filter", name := some "filter", redirect := none, guarded := false },
        { path := "*", name := none, redirect := some notFoundPage, guarded := false } ] := by
    decide
  have h1 : matchRoute "" path = none := h "/" (by decide)
  have h2 : matchRoute "/event/create" path = none := h "/event/create" (by decide)
  have h3 : matchRoute "/event/:id" path = none := h "/event/:id" (by decide)
  have h4 : matchRoute "/404" path = none := h "/404" (by decide)
  have h5 : matchRoute "/network-issue" path = none := h "/network-issue" (by decide)
  have h6 : matchRoute "/validation" path = none := h "/validation" (by decide)
  have h7 : matchRoute "/filter" path = none := h "/filter" (by decide)
  have h8 : matchRoute "*" path = some [("pathMatch", path)] := by simp [matchRoute]
  unfold resolve
  rw [hmap]
  simp only [resolveIn, h1, h2, h3, h4, h5, h6, h7, h8, notFoundPage]

/-- Witness of C7: the path `/anything-undefined`. -/
theorem C7_witness :
    resolve routes "/anything-undefined" =
      Resolution.redirect { name := "404", params := [("resource", "page")] } :=
  C7_unmatched_path_redirects_to_404_page "/anything-undefined" (by decide)

/-- C10: each statically declared path resolves to the route of its own name:
`/event/create` to `event-create` and not to `event-show`, and `/network-issue`,
`/validation` and `/filter`, declared after the catch-all entry, to `network-issue`,
`validation` and `filter` and not to the redirect of the catch-all. -/
theorem C10_static_paths_resolve_to_their_own_route :
    resolve routes "/" = Resolution.route (some "event-list") [] false ∧
    resolve routes "/event/create" = Resolution.route (some "event-create") [] false ∧
    resolve routes "/404" = Resolution.route (some "404") [] false ∧
    resolve routes "/network-issue" = Resolution.route (some "network-issue") [] false ∧
    resolve routes "/validation" = Resolution.route (some "validation") [] false ∧
    resolve routes "/filter" = Resolution.route (some "filter") [] false := by
  decide

/-! ## The claims on the API client -/

/-- C5 fails on the failure path: for `getEvent(999)` answered with a 404 response, for
`getEvents(10, 2)` that times out and for `postEvent` that meets a network error, the
log holds the start signal and the request and no done signal; on a 200 response the
done signal follows. -/
theorem C5_done_signal_missing_on_failure :
    (getEvent (fun _ => .response { status := 404, data := [] }) (.num 999) []).1 =
      [ClientEvent.progressStart,
        ClientEvent.sent { method := .GET, url := "/events/999", data := none }] ∧
    (getEvents (fun _ => .timeout) (.num 10) (.num 2) []).1 =
      [ClientEvent.progressStart,
        ClientEvent.sent { method := .GET, url := "/events?_limit=10&_page=2", data := none }] ∧
    (postEvent (fun _ => .networkError) launch []).1 =
      [ClientEvent.progressStart,
        ClientEvent.sent { method := .POST, url := "/events", data := some launch }] ∧
    (getEvent (fun _ => .response { status := 200, data := [launch] }) (.num 42) []).1 =
      [ClientEvent.progressStart,
        ClientEvent.sent { method := .GET, url := "/events/42", data := none },
        ClientEvent.progressDone] := by
  decide

/-- C8: `getEvents(perPage, page)` sends exactly one request, a GET of the URL
`"/events?_limit=" + perPage + "&_page=" + page`, and returns what the client returns
for that request: the promise the client makes of the network outcome, untouched. The
text each argument contributes is the text string concatenation gives it: a string as
it is, `getEvents(10, 2)` requests `/events?_limit=10&_page=2`, and a count of `1e21`
is sent as `1e+21`. -/
theorem C8_getEvents_one_get_with_limit_and_page (net : Request → Transport)
    (perPage page : Prim) (log : List ClientEvent) :
    sentRequests (getEvents net perPage page log).1 =
      sentRequests log ++
        [{ method := Method.GET,
           url := "/events?_limit=" ++ jsToString perPage ++ "&_page=" ++ jsToString page,
           data := none }] ∧
    (getEvents net perPage page log).2 =
      (apiClientGet net
        ("/events?_limit=" ++ jsToString perPage ++ "&_page=" ++ jsToString page) log).2 ∧
    (getEvents net perPage page log).2 =
      settle (net { method := Method.GET,
                    url := "/events?_limit=" ++ jsToString perPage ++ "&_page=" ++
                      jsToString page,
                    data := none }) ∧
    sentRequests (getEvents net (.num 10) (.num 2) []).1 =
      [{ method := Method.GET, url := "/events?_limit=10&_page=2", data := none }] ∧
    sentRequests (getEvents net (.str "10") (.str "2") []).1 =
      [{ method := Method.GET, url := "/events?_limit=10&_page=2", data := none }] ∧
    sentRequests (getEvents net (.num 1000000000000000000000) (.num 1) []).1 =
      [{ method := Method.GET, url := "/events?_limit=1e+21&_page=1", data := none }] ∧
    (∀ s t : String, sentRequests (getEvents net (.str s) (.str t) []).1 =
      [{ method := Method.GET, url := "/events?_limit=" ++ s ++ "&_page=" ++ t,
         data := none }]) := by
  have hsent : ∀ (a b : Prim) (l : List ClientEvent),
      sentRequests (getEvents net a b l).1 =
        sentRequests l ++
          [{ method := Method.GET,
             url := "/events?_limit=" ++ jsToString a ++ "&_page=" ++ jsToString b,
             data := none }] := by
    intro a b l
    unfold getEvents apiClientGet
    rw [apiClientRequest_eq]
    split <;> simp [sentRequests_append, sentRequests]
  have h10 : jsToString (.num 10) = "10" := by decide
  have h2 : jsToString (.num 2) = "2" := by decide
  have h1 : jsToString (.num 1) = "1" := by decide
  have hbig : jsToString (.num 1000000000000000000000) = "1e+21" := by decide
  refine ⟨hsent perPage page log, ?_, ?_, ?_, ?_, ?_, ?_⟩
  · rfl
  · unfold getEvents apiClientGet
    rw [apiClientRequest_eq]
  · rw [hsent, h10, h2]; rfl
  · rw [hsent]; rfl
  · rw [hsent, hbig, h1]; rfl
  · intro s t
    rw [hsent]; rfl

end NextLevelVue
